import Mathlib

/-!
Verification of the Expiry_risk_project pipeline and dashboard.

The repository has two source files: `run_pipeline.py` (the CLI entry point
that chains the five backend stages) and `dashboard/app.py` (a Streamlit
script that re-runs part of the pipeline on upload and renders the outputs).
We embed both as pure Lean functions producing event traces, embed the CSV
serialisation used by the download button, and model the stage
implementations that are not part of the snapshot from the specification.
-/

/-- Backend pipeline stages of the repository, in the order `run_pipeline.py`
names them. -/
inductive Stage
  | preprocessing
  | expiryClassification
  | forecasting
  | riskScoring
  | recommendation
deriving DecidableEq, Repr

/-- Observable events of a pipeline invocation: a progress line printed to
standard output, or a call into one of the stage functions. -/
inductive Event
  | printLine (msg : String)
  | stageCall (st : Stage)
deriving DecidableEq, Repr

/-- How an invocation ends: all statements executed, or an uncaught exception
raised by some stage aborted it. -/
inductive RunOutcome
  | completed
  | aborted (st : Stage)
deriving DecidableEq, Repr

/-- Message printed by `run_pipeline.py` when the forecasting stage raises
(the caught exception's text is elided from the model). -/
def forecastSkipMsg : String := "Forecast step skipped"

/-- Embedding of `run_pipeline` from `src/run_pipeline.py`. The argument
`raises st = true` means the call into stage `st` raises an exception. Each
stage call is preceded by a `print` of a progress line; only the forecasting
call sits inside a `try/except` that prints a skip message and continues. An
exception from any other stage propagates, ending the trace there. -/
def run_pipeline (raises : Stage → Bool) : List Event × RunOutcome :=
  let t1 := [Event.printLine "Step 1: Data Preprocessing",
             Event.stageCall Stage.preprocessing]
  if raises Stage.preprocessing then (t1, RunOutcome.aborted Stage.preprocessing) else
  let t2 := t1 ++ [Event.printLine "Step 2: Predicting Expiry Class (using saved model)",
                   Event.stageCall Stage.expiryClassification]
  if raises Stage.expiryClassification then
    (t2, RunOutcome.aborted Stage.expiryClassification) else
  let t3 := t2 ++ [Event.printLine "Step 3: Forecasting (using saved / skip if exists)",
                   Event.stageCall Stage.forecasting]
  let t3b := if raises Stage.forecasting then t3 ++ [Event.printLine forecastSkipMsg] else t3
  let t4 := t3b ++ [Event.printLine "Step 4: Risk Scoring",
                    Event.stageCall Stage.riskScoring]
  if raises Stage.riskScoring then (t4, RunOutcome.aborted Stage.riskScoring) else
  let t5 := t4 ++ [Event.printLine "Step 5: Recommendation Engine",
                   Event.stageCall Stage.recommendation]
  if raises Stage.recommendation then (t5, RunOutcome.aborted Stage.recommendation) else
  (t5 ++ [Event.printLine "Pipeline completed successfully. Output: data/external/recommendations.csv"],
   RunOutcome.completed)

/-- Embedding of the pipeline invocation in `src/dashboard/app.py` (the four
calls under the comment `Run the pipeline silently`): `data_preprocessing_main`,
`forecast_main`, `risk_main`, `run_recommendation_pipeline`, with no progress
prints, no call to `predict_expiry_class`, and no `try/except` around any
call, so every exception propagates. -/
def appPipelineInvocation (raises : Stage → Bool) : List Event × RunOutcome :=
  let t1 := [Event.stageCall Stage.preprocessing]
  if raises Stage.preprocessing then (t1, RunOutcome.aborted Stage.preprocessing) else
  let t2 := t1 ++ [Event.stageCall Stage.forecasting]
  if raises Stage.forecasting then (t2, RunOutcome.aborted Stage.forecasting) else
  let t3 := t2 ++ [Event.stageCall Stage.riskScoring]
  if raises Stage.riskScoring then (t3, RunOutcome.aborted Stage.riskScoring) else
  let t4 := t3 ++ [Event.stageCall Stage.recommendation]
  if raises Stage.recommendation then (t4, RunOutcome.aborted Stage.recommendation) else
  (t4, RunOutcome.completed)

/-- The sequence of stage calls recorded in an event trace. -/
def stageCalls (evs : List Event) : List Stage :=
  evs.filterMap (fun e => match e with
    | Event.stageCall st => some st
    | Event.printLine _ => none)

/-- A CSV table as the dataframe library presents it: a header row of column
names and data rows, each a list of cells. Cells are character lists so that
serialisation is by character. -/
structure Table where
  header : List (List Char)
  rows : List (List (List Char))
deriving DecidableEq, Repr

/-- Does the table have a column with the given name
(`name in df.columns`)? -/
def Table.hasCol (t : Table) (name : String) : Bool :=
  t.header.contains name.toList

/-- One CSV line: the cells of a row joined by commas. -/
def joinRow (row : List (List Char)) : List Char :=
  [','].intercalate row

/-- The lines of a table serialised without an index column: the header line
followed by one line per data row. -/
def csvLines (t : Table) : List (List Char) :=
  joinRow t.header :: t.rows.map joinRow

/-- Embedding of `rec_df.to_csv(index=False)`: lines joined by newlines with
the terminating newline the library appends. With `index=False` no index
column is written, so the text is generated from header and data cells
alone. -/
def toCsvText (t : Table) : List Char :=
  ['\n'].intercalate (csvLines t) ++ ['\n']

/-- Embedding of `pd.read_csv` on such a text: split on newlines, skip blank
lines (the `skip_blank_lines` default), take the first remaining line as the
header and the rest as data rows, splitting each on commas. A text with no
nonblank line raises `EmptyDataError`, modelled as `none`. -/
def parseCsv (text : List Char) : Option Table :=
  match (text.splitOn '\n').filter (fun l => !l.isEmpty) with
  | [] => none
  | h :: rs => some ⟨h.splitOn ',', rs.map (fun r => r.splitOn ',')⟩

/-- A cell that serialises unambiguously: nonempty and free of the two
separator characters. -/
def goodCell (c : List Char) : Prop :=
  c ≠ [] ∧ ',' ∉ c ∧ '\n' ∉ c

instance (c : List Char) : Decidable (goodCell c) := by
  unfold goodCell; infer_instance

/-- Tables whose serialisation is unambiguous: nonempty header, nonempty
rows, and every cell a `goodCell`. -/
def wfTable (t : Table) : Prop :=
  t.header ≠ [] ∧ (∀ r ∈ t.rows, r ≠ []) ∧
    (∀ c ∈ t.header, goodCell c) ∧ (∀ r ∈ t.rows, ∀ c ∈ r, goodCell c)

instance (t : Table) : Decidable (wfTable t) := by
  unfold wfTable; infer_instance

/-- Files the dashboard reads back after invoking the pipeline; `none` means
the file is absent from disk. -/
structure Disk where
  riskScores : Option Table
  recommendations : Option Table
  forecast : Option Table
deriving DecidableEq, Repr

/-- Path of the risk table the dashboard reads unconditionally. -/
def riskScoresPath : String := "data/external/risk_scores.csv"

/-- Path of the recommendations table, read only behind `os.path.exists`. -/
def recommendationsPath : String := "data/external/recommendations.csv"

/-- Path of the forecast table the dashboard reads unconditionally. -/
def forecastPath : String := "forecasts/product_level/all_products_forecast.csv"

/-- Widgets and messages the dashboard script emits while it runs. -/
inductive RenderEvent
  | successBox (msg : String)
  | subheader (msg : String)
  | sectionHeader (msg : String)
  | barChart
  | dataframe
  | downloadButton (data : List Char)
  | warningBox (msg : String)
  | errorBox (msg : String)
  | metric (label value : String)
  | writeLine
  | lineChart
  | plotlyChart
  | sidebarFilter
  | footer
deriving DecidableEq, Repr

/-- Uncaught exceptions that can end the script: a failed `pd.read_csv` on an
absent file, or the `NameError` from using `rec_df` when neither guarded
read assigned it. -/
inductive PageError
  | fileNotFound (path : String)
  | nameErrorRecDf
deriving DecidableEq, Repr

/-- Inline message shown when the forecast table has no `Date` column. -/
def dateMissingMsg : String :=
  "The Date column is missing in the forecast data. Please check the CSV file."

/-- Inline message shown when the uploaded table has no `Risk_Score`
column. -/
def riskScoreMissingMsg : String :=
  "The Risk_Score column is missing in the uploaded data. Please check the data or preprocessing pipeline."

/-- Inline message shown when the recommendations file is absent. -/
def recMissingMsg : String := "Recommendations file not found."

/-- Embedding of the rendering part of `src/dashboard/app.py` (everything
after the pipeline invocation, lines 100 to 257), for an uploaded table
`uploaded` and disk contents `disk`. The trace lists the widgets emitted in
program order; the second component is the uncaught exception that ended the
script early, if any. The risk and forecast tables are read with no
existence check, so an absent file raises; the recommendations table is read
only behind `os.path.exists`, but the final section uses `rec_df` outside
that guard, which raises `NameError` when the file was absent. -/
def render (uploaded : Table) (disk : Disk) : List RenderEvent × Option PageError :=
  let t0 := [RenderEvent.successBox "File uploaded successfully",
             RenderEvent.subheader "Risk Levels"]
  match disk.riskScores with
  | none => (t0, some (PageError.fileNotFound riskScoresPath))
  | some _ =>
    let t1 := t0 ++ [RenderEvent.barChart, RenderEvent.subheader "Recommendations"]
    let t2 := t1 ++ (match disk.recommendations with
      | some recDf =>
        [RenderEvent.dataframe,
         RenderEvent.downloadButton (toCsvText recDf),
         RenderEvent.subheader "Insights from Recommendations",
         RenderEvent.subheader "Top 10 Products with Highest Stock Quantity",
         RenderEvent.barChart,
         RenderEvent.subheader "Action Distribution by Risk Level",
         RenderEvent.dataframe] ++
        (if recDf.hasCol "Predicted_Discount_Percent" && recDf.hasCol "Category" then
          [RenderEvent.subheader "Average Discount by Product Category",
           RenderEvent.barChart]
         else [])
      | none => [RenderEvent.warningBox recMissingMsg])
    let t3 := t2 ++ [RenderEvent.subheader "Enhanced Insights and Filters"]
    let t4 := t3 ++ (match disk.recommendations with
      | some recDf =>
        [RenderEvent.sidebarFilter, RenderEvent.sidebarFilter, RenderEvent.dataframe,
         RenderEvent.subheader "Stock Quantity by Risk Level", RenderEvent.barChart] ++
        (if recDf.hasCol "Predicted_Discount_Percent" then
          [RenderEvent.subheader "Average Discount by Risk Level", RenderEvent.barChart]
         else []) ++
        [RenderEvent.subheader "Top Products by Stock Quantity", RenderEvent.dataframe,
         RenderEvent.subheader "Enhanced Visualizations",
         RenderEvent.subheader "Risk Level Distribution", RenderEvent.plotlyChart,
         RenderEvent.subheader "Stock Quantity Over Risk Levels", RenderEvent.plotlyChart]
      | none => [])
    let t5 := t4 ++ [RenderEvent.sectionHeader "Key Metrics",
                     RenderEvent.metric "Total Products" "1,000",
                     RenderEvent.metric "Expired Items" "50",
                     RenderEvent.metric "Near-Expiry Items" "200"]
    let t6 := t5 ++ [RenderEvent.sectionHeader "Predictive Insights",
                     RenderEvent.subheader "Expiry Prediction Table",
                     RenderEvent.dataframe]
    let t7 := t6 ++ [RenderEvent.sectionHeader "Forecasting and Trend Analysis"]
    match disk.forecast with
    | none => (t7, some (PageError.fileNotFound forecastPath))
    | some forecastDf =>
      let t8 := t7 ++ [RenderEvent.writeLine] ++
        (if forecastDf.hasCol "Date" then [RenderEvent.lineChart]
         else [RenderEvent.errorBox dateMissingMsg])
      let t9 := t8 ++ [RenderEvent.sectionHeader "Risk Scoring Insights",
                       RenderEvent.writeLine] ++
        (if uploaded.hasCol "Risk_Score" then [RenderEvent.plotlyChart]
         else [RenderEvent.errorBox riskScoreMissingMsg])
      let t10 := t9 ++ [RenderEvent.sectionHeader "Optimization and Recommendations"]
      match disk.recommendations with
      | none => (t10, some PageError.nameErrorRecDf)
      | some _ => (t10 ++ [RenderEvent.dataframe, RenderEvent.footer], none)

/-- Is a render event one of the KPI metric cards? -/
def isMetric (e : RenderEvent) : Bool :=
  match e with
  | RenderEvent.metric _ _ => true
  | _ => false

/-- Risk level categories, ordered Low, Medium, High. -/
inductive RiskLevel
  | low
  | medium
  | high
deriving DecidableEq, Repr

/-- Position of a risk level in the order Low < Medium < High. -/
def RiskLevel.rank : RiskLevel → Nat
  | RiskLevel.low => 0
  | RiskLevel.medium => 1
  | RiskLevel.high => 2

/-- Modelled from the spec: the risk scoring map of `src/risk_scoring.py`,
which is not part of the snapshot (only its callers are). Per the spec,
Risk_Level is a small ordered categorical, Low, Medium or High, "derived
from Risk_Score via fixed thresholds": scores below `tLow` map to Low,
scores below `tHigh` to Medium, all others to High. Scores are numeric,
modelled as rationals; the thresholds are fixed but unspecified, so they are
parameters. -/
def riskLevelOf (tLow tHigh : ℚ) (score : ℚ) : RiskLevel :=
  if score < tLow then RiskLevel.low
  else if score < tHigh then RiskLevel.medium
  else RiskLevel.high

/-- A row of the risk table: product identifier, Risk_Score, Risk_Level. -/
structure RiskRecord where
  product : String
  riskScore : ℚ
  riskLevel : RiskLevel
deriving DecidableEq, Repr

/-- Modelled from the spec: the risk scoring stage over a table of scored
items. Each input row carries a product identifier and a numeric Risk_Score;
the stage attaches the Risk_Level derived from that score through
`riskLevelOf`. -/
def scoreTable (tLow tHigh : ℚ) (items : List (String × ℚ)) : List RiskRecord :=
  items.map (fun it => ⟨it.1, it.2, riskLevelOf tLow tHigh it.2⟩)

/-- A row of the forecast table: product identifier, date index, predicted
quantity. -/
structure ForecastPoint where
  product : String
  date : Nat
  predictedQty : ℚ
deriving DecidableEq, Repr

/-- A row of the recommendations table. -/
structure Recommendation where
  product : String
  predictedAction : String
  predictedDiscountPercent : ℚ
deriving DecidableEq, Repr

/-- Modelled from the spec: the recommendation stage of
`src/recommendations/recommend.py`, which is not part of the snapshot. Per
the spec a Recommendation is "derived from RiskRecord + ForecastPoint joined
by product identifier": each pair of a risk record and a forecast point with
the same product identifier yields one recommendation row, whose action and
discount are computed by the fixed but unspecified maps `act` and `disc`. -/
def recommendJoin (act : RiskLevel → ℚ → String) (disc : RiskLevel → ℚ → ℚ)
    (risk : List RiskRecord) (forecast : List ForecastPoint) : List Recommendation :=
  risk.flatMap (fun rr =>
    (forecast.filter (fun fp => fp.product == rr.product)).map
      (fun fp => ⟨rr.product, act rr.riskLevel fp.predictedQty,
                  disc rr.riskLevel fp.predictedQty⟩))

/-- Disk state threaded through a pipeline run: the fixed CSV paths the five
stages read and write (raw upload, processed data, forecast output, risk
output, recommendations output); `none` means the file is absent. -/
structure PipeFS where
  raw : Option Table
  processed : Option Table
  forecastOut : Option Table
  riskOut : Option Table
  recsOut : Option Table
deriving DecidableEq, Repr

/-- Modelled from the spec: one pipeline run on the uploaded table `input`
over disk state `fs`. The stage bodies are not part of the snapshot; per the
spec each stage is "read CSV at fixed path, deterministic column-wise
transform (or model inference), write CSV at fixed path", so they are
arbitrary but fixed functions `pre` (preprocessing), `cls` (expiry
classification, rewriting the processed CSV), `fc` (forecasting), `rk` (risk
scoring), `rec` (recommender joining the risk and forecast outputs). The
forecasting stage is skipped when its output file already exists
(`run_pipeline.py` step 3, using saved / skip if exists); every other write
is a full overwrite. -/
def pipelineRun (pre cls fc rk : Table → Table) (rec : Option Table → Option Table → Table)
    (input : Table) (fs : PipeFS) : PipeFS :=
  let fs1 := { fs with raw := some input, processed := some (pre input) }
  let fs2 := { fs1 with processed := fs1.processed.map cls }
  let fs3 := if fs2.forecastOut.isSome then fs2
             else { fs2 with forecastOut := fs2.processed.map fc }
  let fs4 := { fs3 with riskOut := fs3.processed.map rk }
  { fs4 with recsOut := some (rec fs4.riskOut fs4.forecastOut) }

/-- The stage behaviour where exactly the forecasting call raises an
exception and every other call succeeds. -/
def onlyForecastFails : Stage → Bool := fun st => st == Stage.forecasting

/-! Helper lemmas about joining and splitting on a single separator. -/

theorem single_intercalate_cons_cons {α : Type} (x : α) (a b : List α) (t : List (List α)) :
    [x].intercalate (a :: b :: t) = a ++ x :: [x].intercalate (b :: t) := by
  simp [List.intercalate, List.intersperse_cons_cons]

theorem intercalate_concat_nil {α : Type} (x : α) :
    ∀ ls : List (List α), ls ≠ [] →
      [x].intercalate (ls ++ [([] : List α)]) = [x].intercalate ls ++ [x]
  | [], h => absurd rfl h
  | [a], _ => by simp [List.intercalate, List.intersperse_cons_cons]
  | a :: b :: t, _ => by
    have ih := intercalate_concat_nil x (b :: t) (by simp)
    calc [x].intercalate ((a :: b :: t) ++ [([] : List α)])
        = a ++ x :: [x].intercalate ((b :: t) ++ [([] : List α)]) := by
          simp only [List.cons_append]
          exact single_intercalate_cons_cons x a b (t ++ [[]])
      _ = a ++ x :: ([x].intercalate (b :: t) ++ [x]) := by rw [ih]
      _ = (a ++ x :: [x].intercalate (b :: t)) ++ [x] := by simp
      _ = [x].intercalate (a :: b :: t) ++ [x] := by rw [single_intercalate_cons_cons]

theorem not_mem_single_intercalate {α : Type} (x a : α) (hne : a ≠ x) :
    ∀ ls : List (List α), (∀ l ∈ ls, a ∉ l) → a ∉ [x].intercalate ls
  | [], _ => by simp [List.intercalate]
  | [c], h => by simpa [List.intercalate] using h c (by simp)
  | c :: d :: t, h => by
    rw [single_intercalate_cons_cons]
    intro hmem
    rcases List.mem_append.mp hmem with h1 | h2
    · exact h c (by simp) h1
    · rcases List.mem_cons.mp h2 with h3 | h4
      · exact hne h3
      · exact not_mem_single_intercalate x a hne (d :: t)
          (fun l hl => h l (List.mem_cons_of_mem _ hl)) h4

theorem joinRow_ne_nil :
    ∀ row : List (List Char), row ≠ [] → (∀ c ∈ row, c ≠ []) → joinRow row ≠ []
  | [], h, _ => absurd rfl h
  | [c], _, hcells => by simpa [joinRow, List.intercalate] using hcells c (by simp)
  | c :: d :: t, _, _ => by
    rw [joinRow, single_intercalate_cons_cons]
    exact List.append_ne_nil_of_right_ne_nil _ (List.cons_ne_nil _ _)

theorem newline_not_mem_joinRow (row : List (List Char))
    (hcells : ∀ c ∈ row, '\n' ∉ c) : '\n' ∉ joinRow row :=
  not_mem_single_intercalate ',' '\n' (by decide) row hcells

/-- Reading back the CSV text written for a well-formed table recovers the
table exactly: the same header and the same rows, cell for cell. -/
theorem parseCsv_toCsvText (t : Table) (h : wfTable t) : parseCsv (toCsvText t) = some t := by
  obtain ⟨hh, hrows, hhc, hrc⟩ := h
  have hlines_ne : ∀ l ∈ csvLines t, l ≠ [] := by
    intro l hl
    rcases List.mem_cons.mp hl with rfl | hl2
    · exact joinRow_ne_nil _ hh (fun c hc => (hhc c hc).1)
    · obtain ⟨r, hr, rfl⟩ := List.mem_map.mp hl2
      exact joinRow_ne_nil _ (hrows r hr) (fun c hc => (hrc r hr c hc).1)
  have hlines_nl : ∀ l ∈ csvLines t ++ [([] : List Char)], '\n' ∉ l := by
    intro l hl
    rcases List.mem_append.mp hl with hl1 | hl2
    · rcases List.mem_cons.mp hl1 with rfl | hl3
      · exact newline_not_mem_joinRow _ (fun c hc => (hhc c hc).2.2)
      · obtain ⟨r, hr, rfl⟩ := List.mem_map.mp hl3
        exact newline_not_mem_joinRow _ (fun c hc => (hrc r hr c hc).2.2)
    · simp only [List.mem_singleton] at hl2
      subst hl2
      simp
  have hsplit : (toCsvText t).splitOn '\n' = csvLines t ++ [[]] := by
    rw [toCsvText, ← intercalate_concat_nil '\n' (csvLines t) (by simp [csvLines])]
    exact List.splitOn_intercalate _ '\n' hlines_nl (by simp)
  have hfilter : (csvLines t ++ [([] : List Char)]).filter (fun l => !l.isEmpty) = csvLines t := by
    rw [List.filter_append]
    have h1 : (csvLines t).filter (fun l => !l.isEmpty) = csvLines t :=
      List.filter_eq_self.mpr (fun l hl => by
        simpa [List.isEmpty_iff] using hlines_ne l hl)
    have h2 : ([([] : List Char)]).filter (fun l => !l.isEmpty) = [] := by simp
    rw [h1, h2, List.append_nil]
  have hrow : ∀ r, r ≠ [] → (∀ c ∈ r, goodCell c) → (joinRow r).splitOn ',' = r := by
    intro r hr hc
    rw [joinRow]
    exact List.splitOn_intercalate _ ',' (fun c hcc => (hc c hcc).2.1) hr
  rw [parseCsv, hsplit, hfilter]
  show some (⟨(joinRow t.header).splitOn ',', (t.rows.map joinRow).map (fun r => r.splitOn ',')⟩ : Table) = some t
  rw [hrow t.header hh hhc, List.map_map]
  have hmaps : t.rows.map ((fun r => r.splitOn ',') ∘ joinRow) = t.rows := by
    have hcong : ∀ r ∈ t.rows, ((fun r => r.splitOn ',') ∘ joinRow) r = id r := by
      intro r hr
      show (joinRow r).splitOn ',' = r
      exact hrow r (hrows r hr) (fun c hc => hrc r hr c hc)
    rw [List.map_congr_left hcong, List.map_id]
  rw [hmaps]

/-- C1: in a `run_pipeline` run, an exception raised by the forecasting
stage is caught and logged (the skip message is printed) and the run
continues with the remaining stages, risk scoring and recommendation, while
an exception raised by any other stage propagates uncaught and aborts the
run: the outcome is `aborted` at that stage and no later stage is called. -/
theorem forecast_failure_contained (raises : Stage → Bool) :
    (run_pipeline raises).2 ≠ RunOutcome.aborted Stage.forecasting ∧
    (raises Stage.preprocessing = false → raises Stage.expiryClassification = false →
      raises Stage.forecasting = true →
        Event.printLine forecastSkipMsg ∈ (run_pipeline raises).1 ∧
        Event.stageCall Stage.riskScoring ∈ (run_pipeline raises).1 ∧
        (raises Stage.riskScoring = false →
          Event.stageCall Stage.recommendation ∈ (run_pipeline raises).1)) ∧
    (raises Stage.preprocessing = true →
        (run_pipeline raises).2 = RunOutcome.aborted Stage.preprocessing ∧
        Event.stageCall Stage.expiryClassification ∉ (run_pipeline raises).1) ∧
    (raises Stage.preprocessing = false → raises Stage.expiryClassification = true →
        (run_pipeline raises).2 = RunOutcome.aborted Stage.expiryClassification ∧
        Event.stageCall Stage.forecasting ∉ (run_pipeline raises).1) ∧
    (raises Stage.preprocessing = false → raises Stage.expiryClassification = false →
      raises Stage.riskScoring = true →
        (run_pipeline raises).2 = RunOutcome.aborted Stage.riskScoring ∧
        Event.stageCall Stage.recommendation ∉ (run_pipeline raises).1) ∧
    (raises Stage.preprocessing = false → raises Stage.expiryClassification = false →
      raises Stage.riskScoring = false → raises Stage.recommendation = true →
        (run_pipeline raises).2 = RunOutcome.aborted Stage.recommendation) := by
  refine ⟨?_, ?_, ?_, ?_, ?_, ?_⟩
  · cases hp : raises Stage.preprocessing <;>
    cases he : raises Stage.expiryClassification <;>
    cases hf : raises Stage.forecasting <;>
    cases hr : raises Stage.riskScoring <;>
    cases hc : raises Stage.recommendation <;>
      simp [run_pipeline, hp, he, hf, hr, hc]
  · intro hp he hf
    cases hr : raises Stage.riskScoring <;>
    cases hc : raises Stage.recommendation <;>
      simp [run_pipeline, hp, he, hf, hr, hc]
  · intro hp
    simp [run_pipeline, hp]
  · intro hp he
    simp [run_pipeline, hp, he]
  · intro hp he hr
    cases hf : raises Stage.forecasting <;>
      simp [run_pipeline, hp, he, hf, hr]
  · intro hp he hr hc
    cases hf : raises Stage.forecasting <;>
      simp [run_pipeline, hp, he, hf, hr, hc]

/-- Witness for `forecast_failure_contained`: with exactly the forecasting
call raising, the skip message is logged and both remaining stages are still
called. -/
theorem forecast_failure_contained_witness :
    Event.printLine forecastSkipMsg ∈ (run_pipeline onlyForecastFails).1 ∧
    Event.stageCall Stage.riskScoring ∈ (run_pipeline onlyForecastFails).1 ∧
    Event.stageCall Stage.recommendation ∈ (run_pipeline onlyForecastFails).1 := by
  have h := (forecast_failure_contained onlyForecastFails).2.1 rfl rfl rfl
  exact ⟨h.1, h.2.1, h.2.2 rfl⟩

/-- C3: when no stage raises, the CLI entry point `run_pipeline` emits
exactly the five stage calls in the fixed order preprocessing, expiry
classification, forecasting, risk scoring, recommendation, each preceded by
a progress line printed to standard output, and completes. -/
theorem cli_five_stages_in_order (raises : Stage → Bool) (h : ∀ st, raises st = false) :
    (run_pipeline raises).1 =
      [Event.printLine "Step 1: Data Preprocessing",
       Event.stageCall Stage.preprocessing,
       Event.printLine "Step 2: Predicting Expiry Class (using saved model)",
       Event.stageCall Stage.expiryClassification,
       Event.printLine "Step 3: Forecasting (using saved / skip if exists)",
       Event.stageCall Stage.forecasting,
       Event.printLine "Step 4: Risk Scoring",
       Event.stageCall Stage.riskScoring,
       Event.printLine "Step 5: Recommendation Engine",
       Event.stageCall Stage.recommendation,
       Event.printLine "Pipeline completed successfully. Output: data/external/recommendations.csv"] ∧
    stageCalls (run_pipeline raises).1 =
      [Stage.preprocessing, Stage.expiryClassification, Stage.forecasting,
       Stage.riskScoring, Stage.recommendation] ∧
    (run_pipeline raises).2 = RunOutcome.completed := by
  refine ⟨?_, ?_, ?_⟩ <;>
    simp [run_pipeline, stageCalls, h Stage.preprocessing, h Stage.expiryClassification,
      h Stage.forecasting, h Stage.riskScoring, h Stage.recommendation]

/-- Witness for `cli_five_stages_in_order` at the all-successful
behaviour. -/
theorem cli_five_stages_in_order_witness :
    stageCalls (run_pipeline (fun _ => false)).1 =
      [Stage.preprocessing, Stage.expiryClassification, Stage.forecasting,
       Stage.riskScoring, Stage.recommendation] ∧
    (run_pipeline (fun _ => false)).2 = RunOutcome.completed :=
  ⟨(cli_five_stages_in_order (fun _ => false) (fun _ => rfl)).2.1,
   (cli_five_stages_in_order (fun _ => false) (fun _ => rfl)).2.2⟩

/-- C2 as stated is false: with every stage call succeeding, the dashboard
upload handler and the CLI entry point produce different stage-call
sequences (the dashboard never invokes the expiry classification stage),
and with exactly the forecasting call raising, the CLI run completes while
the dashboard run aborts, so the failure containment differs as well. -/
theorem dashboard_pipeline_differs :
    stageCalls (appPipelineInvocation (fun _ => false)).1 ≠
      stageCalls (run_pipeline (fun _ => false)).1 ∧
    (run_pipeline onlyForecastFails).2 = RunOutcome.completed ∧
    (appPipelineInvocation onlyForecastFails).2 = RunOutcome.aborted Stage.forecasting := by
  decide

/-- C2 amended: the dashboard upload handler re-runs four of the five
backend stages, in the pipeline's relative order but omitting expiry
classification, silently (no progress prints) and with no failure
containment: when every call succeeds the stage calls are preprocessing,
forecasting, risk scoring, recommendation in that order and the run
completes, and an exception raised by the forecasting stage propagates,
aborting the run before risk scoring. -/
theorem dashboard_pipeline_four_stages (raises : Stage → Bool) :
    ((∀ st, raises st = false) →
      stageCalls (appPipelineInvocation raises).1 =
        [Stage.preprocessing, Stage.forecasting, Stage.riskScoring, Stage.recommendation] ∧
      (appPipelineInvocation raises).2 = RunOutcome.completed) ∧
    Event.stageCall Stage.expiryClassification ∉ (appPipelineInvocation raises).1 ∧
    (∀ msg, Event.printLine msg ∉ (appPipelineInvocation raises).1) ∧
    (raises Stage.preprocessing = false → raises Stage.forecasting = true →
      (appPipelineInvocation raises).2 = RunOutcome.aborted Stage.forecasting ∧
      Event.stageCall Stage.riskScoring ∉ (appPipelineInvocation raises).1) := by
  refine ⟨?_, ?_, ?_, ?_⟩
  · intro h
    constructor <;>
      simp [appPipelineInvocation, stageCalls, h Stage.preprocessing,
        h Stage.forecasting, h Stage.riskScoring, h Stage.recommendation]
  · cases hp : raises Stage.preprocessing <;>
    cases hf : raises Stage.forecasting <;>
    cases hr : raises Stage.riskScoring <;>
    cases hc : raises Stage.recommendation <;>
      simp [appPipelineInvocation, hp, hf, hr, hc]
  · intro msg
    cases hp : raises Stage.preprocessing <;>
    cases hf : raises Stage.forecasting <;>
    cases hr : raises Stage.riskScoring <;>
    cases hc : raises Stage.recommendation <;>
      simp [appPipelineInvocation, hp, hf, hr, hc]
  · intro hp hf
    simp [appPipelineInvocation, hp, hf]

/-- Witness for `dashboard_pipeline_four_stages` at the all-successful and
the forecast-failing behaviours. -/
theorem dashboard_pipeline_four_stages_witness :
    stageCalls (appPipelineInvocation (fun _ => false)).1 =
      [Stage.preprocessing, Stage.forecasting, Stage.riskScoring, Stage.recommendation] ∧
    (appPipelineInvocation onlyForecastFails).2 = RunOutcome.aborted Stage.forecasting :=
  ⟨((dashboard_pipeline_four_stages (fun _ => false)).1 (fun _ => rfl)).1,
   ((dashboard_pipeline_four_stages onlyForecastFails).2.2.2 rfl rfl).1⟩

/-- C4: in the scored risk table, Risk_Level is a deterministic function of
Risk_Score alone: every record's level equals the fixed-threshold map
`riskLevelOf` applied to its score (so each score is mapped to exactly one
of the categories Low, Medium, High), and two records with equal Risk_Score
always receive equal Risk_Level. -/
theorem riskLevel_deterministic (tLow tHigh : ℚ) (items : List (String × ℚ)) :
    (∀ r ∈ scoreTable tLow tHigh items,
      r.riskLevel = riskLevelOf tLow tHigh r.riskScore) ∧
    (∀ r1 ∈ scoreTable tLow tHigh items, ∀ r2 ∈ scoreTable tLow tHigh items,
      r1.riskScore = r2.riskScore → r1.riskLevel = r2.riskLevel) := by
  have hfun : ∀ r ∈ scoreTable tLow tHigh items,
      r.riskLevel = riskLevelOf tLow tHigh r.riskScore := by
    intro r hr
    simp only [scoreTable, List.mem_map] at hr
    obtain ⟨it, _, rfl⟩ := hr
    rfl
  refine ⟨hfun, ?_⟩
  intro r1 h1 r2 h2 hs
  rw [hfun r1 h1, hfun r2 h2, hs]

/-- Witness for `riskLevel_deterministic`: two records with the same score 1
under thresholds 2 and 3 carry the same level. -/
theorem riskLevel_deterministic_witness :
    (⟨"a", 1, RiskLevel.low⟩ : RiskRecord).riskLevel =
      (⟨"b", 1, RiskLevel.low⟩ : RiskRecord).riskLevel :=
  (riskLevel_deterministic 2 3 [("a", 1), ("b", 1)]).2
    ⟨"a", 1, RiskLevel.low⟩ (by decide) ⟨"b", 1, RiskLevel.low⟩ (by decide) rfl

/-- C5: every row of the recommendations output is derived by joining a risk
record with forecast data on the product identifier, so the recommendation
product identifiers form a subset of the risk-table product identifiers. -/
theorem rec_products_subset_risk (act : RiskLevel → ℚ → String)
    (disc : RiskLevel → ℚ → ℚ) (risk : List RiskRecord)
    (forecast : List ForecastPoint) :
    ∀ r ∈ recommendJoin act disc risk forecast,
      r.product ∈ risk.map RiskRecord.product := by
  intro r hr
  simp only [recommendJoin, List.mem_flatMap, List.mem_map, List.mem_filter] at hr
  obtain ⟨rr, hrr, fp, hfp, rfl⟩ := hr
  exact List.mem_map.mpr ⟨rr, hrr, rfl⟩

/-- Witness for `rec_products_subset_risk` on a one-record risk table and a
matching one-point forecast. -/
theorem rec_products_subset_risk_witness :
    (⟨"a", "discount", 0⟩ : Recommendation).product ∈
      [(⟨"a", 1, RiskLevel.low⟩ : RiskRecord)].map RiskRecord.product :=
  rec_products_subset_risk (fun _ _ => "discount") (fun _ _ => 0)
    [⟨"a", 1, RiskLevel.low⟩] [⟨"a", 0, 5⟩] ⟨"a", "discount", 0⟩ (by decide)

/-- C6: running the pipeline twice on an identical input CSV produces
identical outputs: the processed data, forecast, risk scores and
recommendations files after the second run equal, value for value, the same
files after the first run, whatever the (deterministic) stage transforms
and the starting disk state are. -/
theorem pipeline_idempotent (pre cls fc rk : Table → Table)
    (rec : Option Table → Option Table → Table) (input : Table) (fs : PipeFS) :
    (pipelineRun pre cls fc rk rec input (pipelineRun pre cls fc rk rec input fs)).processed =
      (pipelineRun pre cls fc rk rec input fs).processed ∧
    (pipelineRun pre cls fc rk rec input (pipelineRun pre cls fc rk rec input fs)).forecastOut =
      (pipelineRun pre cls fc rk rec input fs).forecastOut ∧
    (pipelineRun pre cls fc rk rec input (pipelineRun pre cls fc rk rec input fs)).riskOut =
      (pipelineRun pre cls fc rk rec input fs).riskOut ∧
    (pipelineRun pre cls fc rk rec input (pipelineRun pre cls fc rk rec input fs)).recsOut =
      (pipelineRun pre cls fc rk rec input fs).recsOut := by
  cases hf : fs.forecastOut <;> simp [pipelineRun, hf]

/-- C9: whatever table is uploaded and whatever the pipeline wrote for the
recommendations and forecast files, the Key Metrics cards the dashboard
renders are exactly the fixed constants 1,000 Total Products, 50 Expired
Items and 200 Near-Expiry Items. -/
theorem kpi_cards_constant (uploaded riskDf : Table) (recOpt fOpt : Option Table) :
    ((render uploaded ⟨some riskDf, recOpt, fOpt⟩).1).filter isMetric =
      [RenderEvent.metric "Total Products" "1,000",
       RenderEvent.metric "Expired Items" "50",
       RenderEvent.metric "Near-Expiry Items" "200"] := by
  cases recOpt <;> cases fOpt <;>
    simp only [render] <;> (try split_ifs) <;> simp [isMetric]

/-- C10: the dashboard reads the risk table and the forecast table with no
existence check: if the risk file is absent the page stops at that first
read, rendering nothing beyond the upload banner and the Risk Levels
subheader; if the forecast file is absent the page stops at that read and
the Risk Scoring section never renders; and no disk state makes the
dashboard raise a file-not-found for the recommendations file, whose read
alone sits behind an existence check. -/
theorem unguarded_reads_abort_page (uploaded riskDf : Table) (recOpt fOpt : Option Table) :
    ((render uploaded ⟨none, recOpt, fOpt⟩).2 =
        some (PageError.fileNotFound riskScoresPath) ∧
      (render uploaded ⟨none, recOpt, fOpt⟩).1 =
        [RenderEvent.successBox "File uploaded successfully",
         RenderEvent.subheader "Risk Levels"]) ∧
    ((render uploaded ⟨some riskDf, recOpt, none⟩).2 =
        some (PageError.fileNotFound forecastPath) ∧
      RenderEvent.sectionHeader "Risk Scoring Insights" ∉
        (render uploaded ⟨some riskDf, recOpt, none⟩).1) ∧
    (∀ d : Disk, (render uploaded d).2 ≠
      some (PageError.fileNotFound recommendationsPath)) := by
  refine ⟨⟨rfl, rfl⟩, ⟨?_, ?_⟩, ?_⟩
  · cases recOpt <;> simp [render]
  · cases recOpt <;> simp only [render] <;> (try split_ifs) <;> simp
  · intro d
    obtain ⟨rs, rc, fo⟩ := d
    cases rs <;> cases rc <;> cases fo <;>
      simp [render, riskScoresPath, forecastPath, recommendationsPath]

/-- C7 as stated is false at this input: with the risk and forecast files
present but the recommendations file absent, the dashboard does render the
inline warning, yet it does not continue rendering to the end of the page:
the Optimization section references the never-assigned `rec_df`, the script
dies with an uncaught NameError, and the footer is never rendered. -/
theorem missing_rec_file_aborts_page :
    RenderEvent.warningBox recMissingMsg ∈
      (render ⟨[], []⟩ ⟨some ⟨[], []⟩, none, some ⟨[], []⟩⟩).1 ∧
    (render ⟨[], []⟩ ⟨some ⟨[], []⟩, none, some ⟨[], []⟩⟩).2 =
      some PageError.nameErrorRecDf ∧
    RenderEvent.footer ∉ (render ⟨[], []⟩ ⟨some ⟨[], []⟩, none, some ⟨[], []⟩⟩).1 := by
  decide

/-- C7 amended: when the Date column is missing from the forecast CSV or the
Risk_Score column is missing from the uploaded CSV, the dashboard renders an
inline error message and continues rendering to the end of the page; when
the recommendations file is absent it renders an inline warning and still
reaches the metrics and forecast sections, but the page then aborts with an
uncaught NameError when the Optimization section references the
recommendation table that was never read. -/
theorem missing_inputs_warn_inline (uploaded riskDf forecastDf recDf : Table) :
    (forecastDf.hasCol "Date" = false →
      RenderEvent.errorBox dateMissingMsg ∈
        (render uploaded ⟨some riskDf, some recDf, some forecastDf⟩).1 ∧
      (render uploaded ⟨some riskDf, some recDf, some forecastDf⟩).2 = none) ∧
    (uploaded.hasCol "Risk_Score" = false →
      RenderEvent.errorBox riskScoreMissingMsg ∈
        (render uploaded ⟨some riskDf, some recDf, some forecastDf⟩).1 ∧
      (render uploaded ⟨some riskDf, some recDf, some forecastDf⟩).2 = none) ∧
    (RenderEvent.warningBox recMissingMsg ∈
        (render uploaded ⟨some riskDf, none, some forecastDf⟩).1 ∧
      RenderEvent.metric "Total Products" "1,000" ∈
        (render uploaded ⟨some riskDf, none, some forecastDf⟩).1 ∧
      (render uploaded ⟨some riskDf, none, some forecastDf⟩).2 =
        some PageError.nameErrorRecDf) := by
  refine ⟨?_, ?_, ?_, ?_, ?_⟩
  · intro h
    simp only [render, h]
    split_ifs <;> simp_all
  · intro h
    simp only [render, h]
    split_ifs <;> simp_all
  · simp only [render]
    (try split_ifs) <;> simp
  · simp only [render]
    (try split_ifs) <;> simp
  · simp [render]

/-- Witness for `missing_inputs_warn_inline` at empty tables, whose headers
lack both columns. -/
theorem missing_inputs_warn_inline_witness :
    RenderEvent.errorBox dateMissingMsg ∈
      (render ⟨[], []⟩ ⟨some ⟨[], []⟩, some ⟨[], []⟩, some ⟨[], []⟩⟩).1 ∧
    (render ⟨[], []⟩ ⟨some ⟨[], []⟩, some ⟨[], []⟩, some ⟨[], []⟩⟩).2 = none :=
  (missing_inputs_warn_inline ⟨[], []⟩ ⟨[], []⟩ ⟨[], []⟩ ⟨[], []⟩).1 (by decide)

/-- C8: when the recommendations file exists, the data offered by the
download button is the serialisation (index column excluded) of exactly the
table read from `data/external/recommendations.csv`, and for a well-formed
table parsing that text back yields the same header, rows and values: the
download round-trips the final recommendation table. The text is UTF-8
encoded before download; UTF-8 encoding of this character sequence is
injective, so the model works at the character level. -/
theorem download_roundtrips_table (uploaded riskDf recDf : Table)
    (fOpt : Option Table) (hwf : wfTable recDf) :
    RenderEvent.downloadButton (toCsvText recDf) ∈
      (render uploaded ⟨some riskDf, some recDf, fOpt⟩).1 ∧
    parseCsv (toCsvText recDf) = some recDf := by
  refine ⟨?_, parseCsv_toCsvText recDf hwf⟩
  cases fOpt <;> simp only [render] <;> split_ifs <;> simp

/-- Witness for `download_roundtrips_table` on a concrete two-column
recommendation table. -/
theorem download_roundtrips_table_witness :
    wfTable (⟨[['a'], ['b']], [[['1'], ['2']]]⟩ : Table) ∧
    (RenderEvent.downloadButton (toCsvText ⟨[['a'], ['b']], [[['1'], ['2']]]⟩) ∈
        (render ⟨[], []⟩
          ⟨some ⟨[], []⟩, some ⟨[['a'], ['b']], [[['1'], ['2']]]⟩, none⟩).1 ∧
      parseCsv (toCsvText ⟨[['a'], ['b']], [[['1'], ['2']]]⟩) =
        some ⟨[['a'], ['b']], [[['1'], ['2']]]⟩) :=
  ⟨by decide, download_roundtrips_table ⟨[], []⟩ ⟨[], []⟩ _ none (by decide)⟩
